import Mathlib

/-!
Verification development for a thin Python client of the FoodData Central
nutrition API (single source file `fcapi_client.py`).

Shallow embedding conventions:
* Python numbers (JSON numeric amounts) are modelled as `Rat`; Python
  `int(x)` truncation toward zero is `pytrunc`.
* Python dictionaries are association lists; a dict comprehension with
  duplicate keys keeps the last binding, so lookups take the last match.
* Fallible Python code (raising `TypeError`, `ValueError`, `KeyError`,
  `RuntimeError`) is modelled with `Except PyError`.
* `functools.cache` (the decorator on the three lookup methods) is the
  `cachedCall` combinator: it first builds a hash key from the argument
  tuple, raising `TypeError` when an argument is unhashable (Python lists
  are unhashable), then consults the per-method cache, and stores a new
  entry only when the body returns normally.
* Network traffic is explicit: each call returns the list of HTTP requests
  it issued, and the decoded body of the (single possible) response is an
  input parameter.
-/

deriving instance DecidableEq for Except

/-- The Python exception classes raised by the client. -/
inductive PyError where
  | typeError (msg : String)
  | valueError (msg : String)
  | keyError (key : String)
  | runtimeError (msg : String)
  deriving DecidableEq, Repr

/-- One element of the raw record's `foodNutrients` list:
`{"nutrient": {"name": ...}, "amount": ...}`. -/
structure RawNutrient where
  name : String
  amount : Rat
  deriving DecidableEq, Repr

/-- A raw API food record, as decoded from JSON, with the required
top-level keys of `parse_json`.  `labelNutrients` maps a nutrient key to
the number stored under its `"value"` key. -/
structure RawFood where
  fdcId : Int
  description : String
  foodNutrients : List RawNutrient
  servingSize : Rat
  servingSizeUnit : String
  labelNutrients : List (String × Rat)
  deriving DecidableEq, Repr

/-- The `macronutrients` sub-dict built by `parse_json`. -/
structure Macronutrients where
  fat : Rat
  carbs : Rat
  protein : Rat
  deriving DecidableEq, Repr

/-- The `serving` sub-dict built by `parse_json`. -/
structure Serving where
  value : Rat
  unit : String
  deriving DecidableEq, Repr

/-- The `nutrition_per_serving` sub-dict built by `parse_json`. -/
structure NutritionPerServing where
  calories : Rat
  fat : Rat
  carbs : Rat
  protein : Rat
  deriving DecidableEq, Repr

/-- The `FoodEntry` dataclass.  `parse_json` returns a dict with exactly
these keys, and `FoodEntry.from_json` splats that dict into the dataclass
field by field, so the output dict and the dataclass share this record
type. -/
structure FoodEntry where
  food_id : Int
  name : String
  calories : Int
  macronutrients : Macronutrients
  serving : Serving
  nutrition_per_serving : NutritionPerServing
  deriving DecidableEq, Repr

/-- Python `int(x)` on a number: truncation toward zero. -/
def pytrunc (q : Rat) : Int :=
  q.num.tdiv q.den

/-- Lowercases one ASCII letter, as Python `str.lower` does (all strings
this client lowercases are ASCII). -/
def lowerChar (c : Char) : Char :=
  if 65 ≤ c.toNat ∧ c.toNat ≤ 90 then Char.ofNat (c.toNat + 32) else c

/-- Python `s.lower()` on the ASCII strings this client handles. -/
def pyLower (s : String) : String :=
  ⟨s.data.map lowerChar⟩

/-- Lookup in an association list with Python dict semantics: when a key
was bound several times (a dict comprehension overwrites), the last
binding wins. -/
def lookupLast (d : List (String × Rat)) (k : String) : Option Rat :=
  d.foldl (fun acc p => if p.1 = k then some p.2 else acc) none

/-- Python `d[k]`: the value, or a `KeyError` naming the key. -/
def keyGet (d : List (String × Rat)) (k : String) : Except PyError Rat :=
  match lookupLast d k with
  | some v => Except.ok v
  | none => Except.error (PyError.keyError k)

/-- The dict comprehension of `parse_json`:
`{x["nutrient"]["name"].lower(): x["amount"] for x in data["foodNutrients"]}`. -/
def nutritionDict (xs : List RawNutrient) : List (String × Rat) :=
  xs.map (fun x => (pyLower x.name, x.amount))

/-- `parse_json`: extracts name, ID, calories, macronutrients, serving and
per-serving nutrition from a raw record, in the source's evaluation order
(energy, fat, carbs, protein, then the four `labelNutrients` keys). -/
def parse_json (data : RawFood) : Except PyError FoodEntry := do
  let nutrition := nutritionDict data.foodNutrients
  let energy ← keyGet nutrition "energy"
  let fat ← keyGet nutrition "total lipid (fat)"
  let carbs ← keyGet nutrition "carbohydrate, by difference"
  let protein ← keyGet nutrition "protein"
  let labelCalories ← keyGet data.labelNutrients "calories"
  let labelFat ← keyGet data.labelNutrients "fat"
  let labelCarbs ← keyGet data.labelNutrients "carbohydrates"
  let labelProtein ← keyGet data.labelNutrients "protein"
  return { food_id := data.fdcId
           name := pyLower data.description
           calories := pytrunc energy
           macronutrients := { fat := fat, carbs := carbs, protein := protein }
           serving := { value := data.servingSize, unit := pyLower data.servingSizeUnit }
           nutrition_per_serving :=
             { calories := labelCalories, fat := labelFat
               carbs := labelCarbs, protein := labelProtein } }

/-- `FoodEntry.from_json`: `FoodEntry(**parse_json(json))`; the splat of
the dict into the dataclass is the identity on the shared record type. -/
def FoodEntry.from_json (data : RawFood) : Except PyError FoodEntry :=
  parse_json data

/-- The body of `FoodEntry.__str__` is `pass`, so the method returns
Python `None` for every instance, never a string. -/
def FoodEntry.dunderStr (_ : FoodEntry) : Option String :=
  none

/-- Python `str(e)` calls `type(e).__str__(e)` and raises `TypeError`
when the result is not a string (here it is always `None`). -/
def pyStrConvert (e : FoodEntry) : Except PyError String :=
  match e.dunderStr with
  | some s => Except.ok s
  | none => Except.error (PyError.typeError "result of dunder str must be str, not NoneType")

/-- `check_response`: classifies an HTTP status code.  200 returns `True`;
400 and 404 raise `ValueError` with distinct messages; anything else
raises `RuntimeError`. -/
def check_response (status : Nat) : Except PyError Bool :=
  if status = 200 then
    Except.ok true
  else if status = 400 then
    Except.error (PyError.valueError "Apparently this request used an invalid parameter.")
  else if status = 404 then
    Except.error (PyError.valueError "The status code indicates that the food item was not found.")
  else
    Except.error (PyError.runtimeError "The status code indicates an unknown error.")

/-- The universe of Python argument values this client handles:
integers, strings, `None`, and lists of such values. -/
inductive PyVal where
  | int (n : Int)
  | str (s : String)
  | pynone
  | list (xs : List PyVal)
  deriving Repr

mutual

/-- Python structural equality on argument values. -/
def PyVal.beq : PyVal → PyVal → Bool
  | .int a, .int b => a == b
  | .str a, .str b => a == b
  | .pynone, .pynone => true
  | .list as, .list bs => PyVal.beqList as bs
  | _, _ => false

/-- Elementwise equality of two value lists. -/
def PyVal.beqList : List PyVal → List PyVal → Bool
  | [], [] => true
  | x :: xs, y :: ys => PyVal.beq x y && PyVal.beqList xs ys
  | _, _ => false

end

mutual

theorem PyVal.beq_iff : ∀ a b : PyVal, PyVal.beq a b = true ↔ a = b
  | .int _, .int _ => by simp [PyVal.beq]
  | .str _, .str _ => by simp [PyVal.beq]
  | .pynone, .pynone => by simp [PyVal.beq]
  | .list as, .list bs => by simp [PyVal.beq, PyVal.beqList_iff as bs]
  | .int _, .str _ => by simp [PyVal.beq]
  | .int _, .pynone => by simp [PyVal.beq]
  | .int _, .list _ => by simp [PyVal.beq]
  | .str _, .int _ => by simp [PyVal.beq]
  | .str _, .pynone => by simp [PyVal.beq]
  | .str _, .list _ => by simp [PyVal.beq]
  | .pynone, .int _ => by simp [PyVal.beq]
  | .pynone, .str _ => by simp [PyVal.beq]
  | .pynone, .list _ => by simp [PyVal.beq]
  | .list _, .int _ => by simp [PyVal.beq]
  | .list _, .str _ => by simp [PyVal.beq]
  | .list _, .pynone => by simp [PyVal.beq]

theorem PyVal.beqList_iff : ∀ as bs : List PyVal, PyVal.beqList as bs = true ↔ as = bs
  | [], [] => by simp [PyVal.beqList]
  | x :: xs, y :: ys => by simp [PyVal.beqList, PyVal.beq_iff x y, PyVal.beqList_iff xs ys]
  | [], _ :: _ => by simp [PyVal.beqList]
  | _ :: _, [] => by simp [PyVal.beqList]

end

instance : DecidableEq PyVal := fun a b =>
  decidable_of_iff (PyVal.beq a b = true) (PyVal.beq_iff a b)

/-- Whether a value can be hashed by `functools.cache`'s key machinery:
Python lists are unhashable, the other values here are hashable. -/
def PyVal.hashable : PyVal → Bool
  | .list _ => false
  | _ => true

mutual

/-- Python `str(x)` on an argument value.  (Inside a rendered list Python
uses `repr` of the elements, which additionally quotes strings; no claim
exercises that corner, and ids joined by the client are integers, where
`str` and `repr` agree.) -/
def pyStr : PyVal → String
  | .int n => toString n
  | .str s => s
  | .pynone => "None"
  | .list xs => "[" ++ String.intercalate ", " (pyStrList xs) ++ "]"

/-- Renders each element of a list of values. -/
def pyStrList : List PyVal → List String
  | [] => []
  | x :: xs => pyStr x :: pyStrList xs

end

/-- An outgoing HTTP GET request: url and query parameters. -/
structure HttpRequest where
  url : String
  params : List (String × PyVal)
  deriving DecidableEq, Repr

/-- Python `d.update(u)` on dicts as ordered association lists: keys
already in `d` keep their position and receive the new value, fresh keys
of `u` are appended in order. -/
def dictUpdate (d u : List (String × PyVal)) : List (String × PyVal) :=
  u.foldl (fun acc kv =>
    if acc.any (fun p => p.1 = kv.1) then
      acc.map (fun p => if p.1 = kv.1 then (p.1, kv.2) else p)
    else acc ++ [kv]) d

/-- `urllib.parse.urljoin`, restricted to this client's uses: the base URL
ends in a slash and every joined path is relative, so the join is plain
concatenation. -/
def urljoin (base rel : String) : String :=
  base ++ rel

/-- The fixed `FCAPI.base_url` class attribute. -/
def FCAPI.base_url : String :=
  "https://api.nal.usda.gov/fdc/v1/"

/-- A `functools.cache` key: the positional argument tuple (minus `self`,
the cache being per instance) together with the keyword arguments in call
order, exactly as `functools._make_key` lays them out. -/
structure PyKey where
  args : List PyVal
  kwargs : List (String × PyVal)
  deriving DecidableEq, Repr

/-- A per-method memoization table of one client instance. -/
abbrev Cache (α : Type) := List (PyKey × α)

/-- Lookup of a key in the memoization table. -/
def cacheLookup {α : Type} : Cache α → PyKey → Option α
  | [], _ => none
  | (k, v) :: rest, key => if k = key then some v else cacheLookup rest key

/-- Building the cache key hashes every argument: it succeeds only when
all positional and keyword values are hashable, and raises `TypeError`
otherwise (Python lists are unhashable). -/
def mkKey (args : List PyVal) (kwargs : List (String × PyVal)) : Option PyKey :=
  if args.all PyVal.hashable && kwargs.all (fun p => p.2.hashable) then
    some { args := args, kwargs := kwargs }
  else
    none

/-- The `functools.cache` wrapper around a method body: hash the argument
tuple (`TypeError` when unhashable, before the body can run), return the
stored result on a hit without touching the network, and on a miss run the
body, storing its result only when it returns normally — exceptions are
never cached. -/
def cachedCall {α : Type} (cache : Cache α) (args : List PyVal)
    (kwargs : List (String × PyVal)) (body : Except PyError α × List HttpRequest) :
    Except PyError α × List HttpRequest × Cache α :=
  match mkKey args kwargs with
  | none => (Except.error (PyError.typeError "unhashable type: list"), [], cache)
  | some key =>
    match cacheLookup cache key with
    | some v => (Except.ok v, [], cache)
    | none =>
      match body with
      | (Except.ok v, reqs) => (Except.ok v, reqs, (key, v) :: cache)
      | (Except.error e, reqs) => (Except.error e, reqs, cache)

/-- `[FoodEntry.from_json(x) for x in ...]`: parses each raw record in
order, propagating the first failure. -/
def parseAll : List RawFood → Except PyError (List FoodEntry)
  | [] => Except.ok []
  | x :: xs => do
      let e ← FoodEntry.from_json x
      let rest ← parseAll xs
      return e :: rest

/-- `",".join([str(x) for x in food_ids])`. -/
def joinIds (xs : List PyVal) : String :=
  String.intercalate "," (xs.map pyStr)

/-- The undecorated body of `FCAPI.food_by_id`: type-check the id, build
the request (base url joined with `food/{id}`, params `api_key` updated
with the keyword options), gate on the status code and parse the decoded
response body.  Returns the outcome and the requests issued. -/
def food_by_id_body (apiKey : String) (food_id : PyVal)
    (kwargs : List (String × PyVal)) (status : Nat) (body : RawFood) :
    Except PyError FoodEntry × List HttpRequest :=
  match food_id with
  | PyVal.int n =>
    let req : HttpRequest :=
      { url := urljoin FCAPI.base_url ("food/" ++ toString n)
        params := dictUpdate [("api_key", PyVal.str apiKey)] kwargs }
    (do
      let _ ← check_response status
      FoodEntry.from_json body, [req])
  | _ =>
    (Except.error (PyError.typeError "food_id must be an integer. for a list use foods_by_id"), [])

/-- The undecorated body of `FCAPI.foods_by_id`: require a list, require
length at most 20, then issue the request (params `api_key` and the
comma-joined `fdcIds`, updated with the keyword options), gate on the
status and parse each record under the response's `"foods"` key. -/
def foods_by_id_body (apiKey : String) (food_ids : PyVal)
    (kwargs : List (String × PyVal)) (status : Nat) (body : List RawFood) :
    Except PyError (List FoodEntry) × List HttpRequest :=
  match food_ids with
  | PyVal.list xs =>
    if xs.length > 20 then
      (Except.error (PyError.valueError "food_ids must be a list of length <= 20"), [])
    else
      let req : HttpRequest :=
        { url := urljoin FCAPI.base_url "foods"
          params := dictUpdate
            [("api_key", PyVal.str apiKey), ("fdcIds", PyVal.str (joinIds xs))] kwargs }
      (do
        let _ ← check_response status
        parseAll body, [req])
  | _ =>
    (Except.error (PyError.typeError "food_ids must be a list. for a single id use food_by_id"), [])

/-- The request built by `FCAPI.search_food_by_query`: url
`foods/search`, params `api_key` updated with the keyword options.  The
`query` and `brand` parameters are received and never used, exactly as in
the source. -/
def search_request (apiKey : String) (query brand : PyVal)
    (kwargs : List (String × PyVal)) : HttpRequest :=
  { url := urljoin FCAPI.base_url "foods/search"
    params := dictUpdate [("api_key", PyVal.str apiKey)] kwargs }

/-- The undecorated body of `FCAPI.search_food_by_query`: issue the
request, gate on the status and parse each record under the response's
`"foods"` key. -/
def search_food_by_query_body (apiKey : String) (query brand : PyVal)
    (kwargs : List (String × PyVal)) (status : Nat) (body : List RawFood) :
    Except PyError (List FoodEntry) × List HttpRequest :=
  (do
    let _ ← check_response status
    parseAll body, [search_request apiKey query brand kwargs])

/-- `FCAPI.food_by_id` as called by a user: the `functools.cache` wrapper
around the body.  `cache` is the instance's memoization table; `status`
and `body` are the decoded response of the one request the body may
issue. -/
def FCAPI.food_by_id (apiKey : String) (cache : Cache FoodEntry) (food_id : PyVal)
    (kwargs : List (String × PyVal)) (status : Nat) (body : RawFood) :
    Except PyError FoodEntry × List HttpRequest × Cache FoodEntry :=
  cachedCall cache [food_id] kwargs (food_by_id_body apiKey food_id kwargs status body)

/-- `FCAPI.foods_by_id` as called by a user: the `functools.cache`
wrapper around the body. -/
def FCAPI.foods_by_id (apiKey : String) (cache : Cache (List FoodEntry)) (food_ids : PyVal)
    (kwargs : List (String × PyVal)) (status : Nat) (body : List RawFood) :
    Except PyError (List FoodEntry) × List HttpRequest × Cache (List FoodEntry) :=
  cachedCall cache [food_ids] kwargs (foods_by_id_body apiKey food_ids kwargs status body)

/-- `FCAPI.search_food_by_query` as called by a user: the
`functools.cache` wrapper around the body; `query` and `brand` are part
of the argument tuple and hence of the cache key. -/
def FCAPI.search_food_by_query (apiKey : String) (cache : Cache (List FoodEntry))
    (query brand : PyVal) (kwargs : List (String × PyVal)) (status : Nat)
    (body : List RawFood) :
    Except PyError (List FoodEntry) × List HttpRequest × Cache (List FoodEntry) :=
  cachedCall cache [query, brand] kwargs
    (search_food_by_query_body apiKey query brand kwargs status body)

/-- The spec's example raw record: fdcId 123, description "Apple",
nutrient amounts 52 / 0.2 / 14 / 0.3, serving 100 "G", matching
`labelNutrients`. -/
def appleRaw : RawFood :=
  { fdcId := 123
    description := "Apple"
    foodNutrients :=
      [ { name := "Energy", amount := 52 }
        , { name := "Total lipid (fat)", amount := mkRat 1 5 }
        , { name := "Carbohydrate, by difference", amount := 14 }
        , { name := "Protein", amount := mkRat 3 10 } ]
    servingSize := 100
    servingSizeUnit := "G"
    labelNutrients :=
      [ ("calories", 52), ("fat", mkRat 1 5)
        , ("carbohydrates", 14), ("protein", mkRat 3 10) ] }

/-- The rational `mkRat 1 5` used in `appleRaw` is the spec example's
literal `0.2`. -/
theorem mkRat_one_fifth_eq : mkRat 1 5 = (0.2 : Rat) := by
  norm_num

/-- The rational `mkRat 3 10` used in `appleRaw` is the spec example's
literal `0.3`. -/
theorem mkRat_three_tenths_eq : mkRat 3 10 = (0.3 : Rat) := by
  norm_num

/-- The normalized record the spec expects for `appleRaw`. -/
def appleEntry : FoodEntry :=
  { food_id := 123
    name := "apple"
    calories := 52
    macronutrients := { fat := mkRat 1 5, carbs := 14, protein := mkRat 3 10 }
    serving := { value := 100, unit := "g" }
    nutrition_per_serving :=
      { calories := 52, fat := mkRat 1 5, carbs := 14, protein := mkRat 3 10 } }

/-- Claim C8: the Normalizer applied to the spec's example raw record
(fdcId 123, "Apple", nutrient amounts 52/0.2/14/0.3, serving 100 "G",
matching labelNutrients) produces exactly the expected record with
food_id 123, name "apple", calories 52, macronutrients 0.2/14/0.3,
serving 100 "g" and per-serving nutrition 52/0.2/14/0.3. -/
theorem from_json_apple_example :
    FoodEntry.from_json appleRaw = Except.ok appleEntry := by
  decide

/-- Claim C6: for every raw record whose four required nutrient names and
four required label keys are present, normalization succeeds, the output's
`calories` equals the truncation to integer of the `energy` amount, and
every other numeric field carries its source value unchanged. -/
theorem parse_json_calories_truncated (data : RawFood)
    (e f c p lc lf lcb lp : Rat)
    (he : lookupLast (nutritionDict data.foodNutrients) "energy" = some e)
    (hf : lookupLast (nutritionDict data.foodNutrients) "total lipid (fat)" = some f)
    (hc : lookupLast (nutritionDict data.foodNutrients) "carbohydrate, by difference" = some c)
    (hp : lookupLast (nutritionDict data.foodNutrients) "protein" = some p)
    (hlc : lookupLast data.labelNutrients "calories" = some lc)
    (hlf : lookupLast data.labelNutrients "fat" = some lf)
    (hlcb : lookupLast data.labelNutrients "carbohydrates" = some lcb)
    (hlp : lookupLast data.labelNutrients "protein" = some lp) :
    parse_json data = Except.ok
      { food_id := data.fdcId
        name := pyLower data.description
        calories := pytrunc e
        macronutrients := { fat := f, carbs := c, protein := p }
        serving := { value := data.servingSize, unit := pyLower data.servingSizeUnit }
        nutrition_per_serving := { calories := lc, fat := lf, carbs := lcb, protein := lp } } := by
  simp only [parse_json, keyGet, he, hf, hc, hp, hlc, hlf, hlcb, hlp]
  rfl

/-- Witness for C6 at the example record: all eight lookups succeed and
`calories` is the truncated energy amount 52. -/
theorem parse_json_calories_truncated_witness :
    parse_json appleRaw = Except.ok
      { food_id := appleRaw.fdcId
        name := pyLower appleRaw.description
        calories := pytrunc 52
        macronutrients := { fat := mkRat 1 5, carbs := 14, protein := mkRat 3 10 }
        serving := { value := appleRaw.servingSize, unit := pyLower appleRaw.servingSizeUnit }
        nutrition_per_serving :=
          { calories := 52, fat := mkRat 1 5, carbs := 14, protein := mkRat 3 10 } } :=
  parse_json_calories_truncated appleRaw 52 (mkRat 1 5) 14 (mkRat 3 10)
    52 (mkRat 1 5) 14 (mkRat 3 10)
    (by decide) (by decide) (by decide) (by decide)
    (by decide) (by decide) (by decide) (by decide)

/-- Claim C7: for every raw record in which any of the four required
nutrient names is absent from the (lowercased) nutrient dict,
normalization fails with a `KeyError` naming one of the required
nutrients; the error propagates out of `parse_json` unrecovered. -/
theorem parse_json_missing_nutrient_fails (data : RawFood)
    (h : lookupLast (nutritionDict data.foodNutrients) "energy" = none ∨
         lookupLast (nutritionDict data.foodNutrients) "total lipid (fat)" = none ∨
         lookupLast (nutritionDict data.foodNutrients) "carbohydrate, by difference" = none ∨
         lookupLast (nutritionDict data.foodNutrients) "protein" = none) :
    ∃ k, parse_json data = Except.error (PyError.keyError k) ∧
      k ∈ ["energy", "total lipid (fat)", "carbohydrate, by difference", "protein"] := by
  rcases he : lookupLast (nutritionDict data.foodNutrients) "energy" with _ | e
  · exact ⟨"energy", by simp only [parse_json, keyGet, he]; rfl, by simp⟩
  rcases hf : lookupLast (nutritionDict data.foodNutrients) "total lipid (fat)" with _ | f
  · exact ⟨"total lipid (fat)", by simp only [parse_json, keyGet, he, hf]; rfl, by simp⟩
  rcases hc : lookupLast (nutritionDict data.foodNutrients) "carbohydrate, by difference"
    with _ | c
  · exact ⟨"carbohydrate, by difference",
      by simp only [parse_json, keyGet, he, hf, hc]; rfl, by simp⟩
  rcases hp : lookupLast (nutritionDict data.foodNutrients) "protein" with _ | p
  · exact ⟨"protein", by simp only [parse_json, keyGet, he, hf, hc, hp]; rfl, by simp⟩
  simp [he, hf, hc, hp] at h

/-- The example record with its protein nutrient removed. -/
def appleRawNoProtein : RawFood :=
  { appleRaw with
    foodNutrients :=
      [ { name := "Energy", amount := 52 }
        , { name := "Total lipid (fat)", amount := mkRat 1 5 }
        , { name := "Carbohydrate, by difference", amount := 14 } ] }

/-- Witness for C7: the example record without its protein nutrient fails
with a `KeyError` on a required nutrient name. -/
theorem parse_json_missing_nutrient_fails_witness :
    ∃ k, parse_json appleRawNoProtein = Except.error (PyError.keyError k) ∧
      k ∈ ["energy", "total lipid (fat)", "carbohydrate, by difference", "protein"] :=
  parse_json_missing_nutrient_fails appleRawNoProtein
    (Or.inr (Or.inr (Or.inr (by decide))))

/-- Claim C4: the status validator is a total classification: 200
succeeds (returning the gate value), 400 fails with the
invalid-parameter `ValueError`, 404 fails with the not-found
`ValueError`, and every other status fails with the unknown-error
`RuntimeError`. -/
theorem check_response_classification :
    check_response 200 = Except.ok true ∧
    check_response 400 =
      Except.error (PyError.valueError "Apparently this request used an invalid parameter.") ∧
    check_response 404 =
      Except.error
        (PyError.valueError "The status code indicates that the food item was not found.") ∧
    ∀ status : Nat, status ≠ 200 → status ≠ 400 → status ≠ 404 →
      check_response status =
        Except.error (PyError.runtimeError "The status code indicates an unknown error.") := by
  refine ⟨rfl, rfl, rfl, ?_⟩
  intro s h1 h2 h3
  simp [check_response, h1, h2, h3]

/-- Witness for C4 at status 500: the unclassified branch is reached. -/
theorem check_response_classification_witness :
    check_response 500 =
      Except.error (PyError.runtimeError "The status code indicates an unknown error.") :=
  check_response_classification.2.2.2 500 (by decide) (by decide) (by decide)

/-- Claim C10: `FoodEntry.__str__` has an empty body and so returns
`None`; Python `str()` on any `FoodEntry` therefore raises `TypeError`,
so no entry can be printed or string-formatted directly. -/
theorem foodentry_str_always_fails (e : FoodEntry) :
    pyStrConvert e =
      Except.error (PyError.typeError "result of dunder str must be str, not NoneType") :=
  rfl

/-- A key absent from the table is not found. -/
theorem cacheLookup_none {α : Type} (cache : Cache α) (key : PyKey)
    (h : ∀ k v, (k, v) ∈ cache → k ≠ key) : cacheLookup cache key = none := by
  induction cache with
  | nil => rfl
  | cons p rest ih =>
    obtain ⟨k, v⟩ := p
    simp only [cacheLookup]
    rw [if_neg (h k v (List.mem_cons_self _ _))]
    exact ih (fun k2 v2 h2 => h k2 v2 (List.mem_cons_of_mem _ h2))

/-- The entry just stored is found. -/
theorem cacheLookup_cons_self {α : Type} (cache : Cache α) (key : PyKey) (v : α) :
    cacheLookup ((key, v) :: cache) key = some v := by
  simp [cacheLookup]

/-- After a call through the `functools.cache` wrapper returns a value, a
later call with the same argument tuple returns that stored value, issues
no request, and leaves the table unchanged — whatever the second call's
body would have done. -/
theorem cachedCall_repeat {α : Type} (cache cache2 : Cache α) (args : List PyVal)
    (kwargs : List (String × PyVal)) (body1 body2 : Except PyError α × List HttpRequest)
    (v : α) (reqs : List HttpRequest)
    (h : cachedCall cache args kwargs body1 = (Except.ok v, reqs, cache2)) :
    cachedCall cache2 args kwargs body2 = (Except.ok v, [], cache2) := by
  cases hk : mkKey args kwargs with
  | none =>
    have h1 : cachedCall cache args kwargs body1 =
        (Except.error (PyError.typeError "unhashable type: list"), [], cache) := by
      simp [cachedCall, hk]
    rw [h1] at h
    simp at h
  | some key =>
    cases hl : cacheLookup cache key with
    | some w =>
      have h1 : cachedCall cache args kwargs body1 = (Except.ok w, [], cache) := by
        simp [cachedCall, hk, hl]
      rw [h1] at h
      simp only [Prod.mk.injEq, Except.ok.injEq] at h
      obtain ⟨hw, _, hc⟩ := h
      subst hw
      subst hc
      simp [cachedCall, hk, hl]
    | none =>
      obtain ⟨res, reqs1⟩ := body1
      cases res with
      | ok w =>
        have h1 : cachedCall cache args kwargs (Except.ok w, reqs1) =
            (Except.ok w, reqs1, (key, w) :: cache) := by
          simp [cachedCall, hk, hl]
        rw [h1] at h
        simp only [Prod.mk.injEq, Except.ok.injEq] at h
        obtain ⟨hw, _, hc⟩ := h
        subst hw
        subst hc
        simp [cachedCall, hk, cacheLookup_cons_self]
      | error e =>
        have h1 : cachedCall cache args kwargs (Except.error e, reqs1) =
            (Except.error e, reqs1, cache) := by
          simp [cachedCall, hk, hl]
        rw [h1] at h
        simp at h

/-- A stored entry is returned as is, with no request and no table
change. -/
theorem cachedCall_hit {α : Type} (cache : Cache α) (args : List PyVal)
    (kwargs : List (String × PyVal)) (body : Except PyError α × List HttpRequest)
    (key : PyKey) (r : α)
    (hk : mkKey args kwargs = some key) (hl : cacheLookup cache key = some r) :
    cachedCall cache args kwargs body = (Except.ok r, [], cache) := by
  simp [cachedCall, hk, hl]

/-- Claim C2: calling `foods_by_id` through the public (decorated) method
with any actual list argument fails with the memoization layer's
`TypeError` — lists are unhashable — before the body runs, with no
request and no cache change; consequently no call of the public method,
with any argument whatsoever, can ever surface the body's list/length
`ValueError` validation. -/
theorem foods_by_id_list_arg_unhashable (apiKey : String) :
    (∀ (cache : Cache (List FoodEntry)) (xs : List PyVal)
       (kwargs : List (String × PyVal)) (status : Nat) (body : List RawFood),
       FCAPI.foods_by_id apiKey cache (PyVal.list xs) kwargs status body =
         (Except.error (PyError.typeError "unhashable type: list"), [], cache)) ∧
    (∀ (cache : Cache (List FoodEntry)) (v : PyVal) (kwargs : List (String × PyVal))
       (status : Nat) (body : List RawFood) (msg : String),
       (FCAPI.foods_by_id apiKey cache v kwargs status body).1 ≠
         Except.error (PyError.valueError msg)) := by
  constructor
  · intro cache xs kwargs status body
    simp [FCAPI.foods_by_id, cachedCall, mkKey, PyVal.hashable]
  · intro cache v kwargs status body msg
    cases hk : mkKey [v] kwargs with
    | none => simp [FCAPI.foods_by_id, cachedCall, hk]
    | some key =>
      cases hl : cacheLookup cache key with
      | some r => simp [FCAPI.foods_by_id, cachedCall, hk, hl]
      | none =>
        cases v with
        | list xs => simp [mkKey, PyVal.hashable] at hk
        | int n => simp [FCAPI.foods_by_id, cachedCall, hk, hl, foods_by_id_body]
        | str s => simp [FCAPI.foods_by_id, cachedCall, hk, hl, foods_by_id_body]
        | pynone => simp [FCAPI.foods_by_id, cachedCall, hk, hl, foods_by_id_body]

/-- Twenty-one consecutive integer food ids. -/
def twentyOneIds : List PyVal :=
  (List.range 21).map (fun n => PyVal.int (n : Int))

/-- Claim C1 (evidence of the code bug): on a list of 21 ids the public
`foods_by_id` raises the cache layer's `TypeError` with no request
issued, while the undecorated body — the documented behavior the spec
describes — would raise the batch-size `ValueError` before any request. -/
theorem foods_by_id_21_ids_behavior :
    FCAPI.foods_by_id "DEMO_KEY" [] (PyVal.list twentyOneIds) [] 200 [] =
      (Except.error (PyError.typeError "unhashable type: list"), [], []) ∧
    foods_by_id_body "DEMO_KEY" (PyVal.list twentyOneIds) [] 200 [] =
      (Except.error (PyError.valueError "food_ids must be a list of length <= 20"), []) := by
  decide

/-- Every key a reachable `food_by_id` cache can hold: entries are stored
only when the body returns normally, which requires an integer id. -/
def foodCacheWF (cache : Cache FoodEntry) : Prop :=
  ∀ k v, (k, v) ∈ cache → ∃ n : Int, k.args = [PyVal.int n]

/-- Claim C9: on any reachable cache state, calling `food_by_id` with a
non-integer argument fails with a `TypeError` and issues no HTTP
request; when the whole argument tuple is hashable the error is the
body's type-mismatch message advising the bulk variant (for an
unhashable tuple it is the cache layer's `TypeError`, still before any
request). -/
theorem food_by_id_non_int_fails (apiKey : String) (cache : Cache FoodEntry)
    (v : PyVal) (kwargs : List (String × PyVal)) (status : Nat) (body : RawFood)
    (hwf : foodCacheWF cache) (hv : ∀ n : Int, v ≠ PyVal.int n) :
    (∃ msg, FCAPI.food_by_id apiKey cache v kwargs status body =
       (Except.error (PyError.typeError msg), [], cache)) ∧
    (v.hashable = true → (kwargs.all fun p => p.2.hashable) = true →
       FCAPI.food_by_id apiKey cache v kwargs status body =
         (Except.error
            (PyError.typeError "food_id must be an integer. for a list use foods_by_id"),
          [], cache)) := by
  have main : ∀ s : PyVal, s.hashable = true → (∀ n : Int, s ≠ PyVal.int n) →
      (kwargs.all fun p => p.2.hashable) = true →
      FCAPI.food_by_id apiKey cache s kwargs status body =
        (Except.error
           (PyError.typeError "food_id must be an integer. for a list use foods_by_id"),
         [], cache) := by
    intro s hs hsv hkw
    have hk : mkKey [s] kwargs = some ⟨[s], kwargs⟩ := by
      simp [mkKey, hs, hkw]
    have hl : cacheLookup cache ⟨[s], kwargs⟩ = none := by
      apply cacheLookup_none
      intro k w hm heq
      obtain ⟨n, hn⟩ := hwf k w hm
      rw [heq] at hn
      simp only [PyKey.mk.injEq, List.cons.injEq] at hn
      exact hsv n hn.1
    cases s with
    | int n => exact absurd rfl (hsv n)
    | str t => simp [FCAPI.food_by_id, cachedCall, hk, hl, food_by_id_body]
    | pynone => simp [FCAPI.food_by_id, cachedCall, hk, hl, food_by_id_body]
    | list xs => simp [PyVal.hashable] at hs
  cases v with
  | list xs =>
    refine ⟨⟨"unhashable type: list", ?_⟩, fun hs _ => by simp [PyVal.hashable] at hs⟩
    simp [FCAPI.food_by_id, cachedCall, mkKey, PyVal.hashable]
  | int n => exact absurd rfl (hv n)
  | str t =>
    by_cases hkw : (kwargs.all fun p => p.2.hashable) = true
    · refine ⟨⟨_, main (PyVal.str t) rfl hv hkw⟩, fun _ _ => main (PyVal.str t) rfl hv hkw⟩
    · have hcond :
          ¬ (([PyVal.str t].all PyVal.hashable && kwargs.all fun p => p.2.hashable) = true) := by
        rw [Bool.and_eq_true]
        exact fun h2 => hkw h2.2
      have hk : mkKey [PyVal.str t] kwargs = none := by
        simp only [mkKey]
        rw [if_neg hcond]
      exact ⟨⟨"unhashable type: list",
          by simp [FCAPI.food_by_id, cachedCall, hk]⟩,
        fun _ hkw2 => absurd hkw2 hkw⟩
  | pynone =>
    by_cases hkw : (kwargs.all fun p => p.2.hashable) = true
    · refine ⟨⟨_, main PyVal.pynone rfl hv hkw⟩, fun _ _ => main PyVal.pynone rfl hv hkw⟩
    · have hcond :
          ¬ (([PyVal.pynone].all PyVal.hashable && kwargs.all fun p => p.2.hashable) = true) := by
        rw [Bool.and_eq_true]
        exact fun h2 => hkw h2.2
      have hk : mkKey [PyVal.pynone] kwargs = none := by
        simp only [mkKey]
        rw [if_neg hcond]
      exact ⟨⟨"unhashable type: list",
          by simp [FCAPI.food_by_id, cachedCall, hk]⟩,
        fun _ hkw2 => absurd hkw2 hkw⟩

/-- Witness for C9: on a fresh client, `food_by_id` applied to the string
"five" fails with the advising `TypeError`, no request issued, cache
unchanged. -/
theorem food_by_id_non_int_fails_witness :
    FCAPI.food_by_id "DEMO_KEY" [] (PyVal.str "five") [] 200 appleRaw =
      (Except.error
         (PyError.typeError "food_id must be an integer. for a list use foods_by_id"),
       [], []) :=
  (food_by_id_non_int_fails "DEMO_KEY" [] (PyVal.str "five") [] 200 appleRaw
      (fun k v h => absurd h (List.not_mem_nil (k, v)))
      (fun n h => PyVal.noConfusion h)).2 rfl rfl

/-- Updating a dict with bindings whose keys are fresh (absent from the
dict, and pairwise distinct as dict keys are) appends them in order. -/
theorem dictUpdate_fresh (u : List (String × PyVal)) :
    ∀ d : List (String × PyVal),
      (∀ p ∈ u, ∀ q ∈ d, p.1 ≠ q.1) → (u.map Prod.fst).Nodup →
      dictUpdate d u = d ++ u := by
  induction u with
  | nil =>
    intro d _ _
    simp [dictUpdate]
  | cons p rest ih =>
    intro d h hnodup
    have hany : (d.any fun q => q.1 = p.1) = false := by
      simp only [List.any_eq_false, decide_eq_true_eq]
      intro q hq hq1
      exact h p (List.mem_cons_self p rest) q hq hq1.symm
    have step : dictUpdate d (p :: rest) = dictUpdate (d ++ [p]) rest := by
      simp [dictUpdate, List.foldl_cons, hany]
    have hkeys : (rest.map Prod.fst).Nodup ∧ p.1 ∉ rest.map Prod.fst := by
      rw [List.map_cons, List.nodup_cons] at hnodup
      exact ⟨hnodup.2, hnodup.1⟩
    rw [step, ih (d ++ [p]) ?_ hkeys.1]
    · simp
    · intro p2 hp2 q hq
      rcases List.mem_append.mp hq with hq2 | hq2
      · exact h p2 (List.mem_cons_of_mem _ hp2) q hq2
      · have hqp : q = p := by simpa using hq2
        subst hqp
        intro heq
        exact hkeys.2 (heq ▸ List.mem_map_of_mem Prod.fst hp2)

/-- Claim C3: the request `search_food_by_query` builds is independent of
both `query` and `brand` — two calls differing only there build identical
requests — and its parameters are exactly `api_key` followed by the extra
keyword options. -/
theorem search_request_ignores_query_and_brand (apiKey : String)
    (q1 b1 q2 b2 : PyVal) (kwargs : List (String × PyVal))
    (hfresh : ∀ p ∈ kwargs, p.1 ≠ "api_key")
    (hnodup : (kwargs.map Prod.fst).Nodup) :
    search_request apiKey q1 b1 kwargs = search_request apiKey q2 b2 kwargs ∧
    (search_request apiKey q1 b1 kwargs).params =
      ("api_key", PyVal.str apiKey) :: kwargs := by
  constructor
  · rfl
  · show dictUpdate [("api_key", PyVal.str apiKey)] kwargs = _
    rw [dictUpdate_fresh kwargs [("api_key", PyVal.str apiKey)] ?_ hnodup]
    · simp
    · intro p hp q hq
      have hq1 : q = ("api_key", PyVal.str apiKey) := by simpa using hq
      subst hq1
      exact hfresh p hp

/-- Witness for C3: two searches with different query and brand but the
same extra option build the same request, whose parameters are the api
key followed by that option. -/
theorem search_request_ignores_query_and_brand_witness :
    search_request "DEMO_KEY" (PyVal.str "cheddar") PyVal.pynone
        [("pageSize", PyVal.int 5)] =
      search_request "DEMO_KEY" (PyVal.str "gouda") (PyVal.str "brandX")
        [("pageSize", PyVal.int 5)] ∧
    (search_request "DEMO_KEY" (PyVal.str "cheddar") PyVal.pynone
        [("pageSize", PyVal.int 5)]).params =
      ("api_key", PyVal.str "DEMO_KEY") :: [("pageSize", PyVal.int 5)] :=
  search_request_ignores_query_and_brand "DEMO_KEY" (PyVal.str "cheddar") PyVal.pynone
    (PyVal.str "gouda") (PyVal.str "brandX") [("pageSize", PyVal.int 5)]
    (by decide) (by decide)

/-- Claim C5: for each of `food_by_id`, `foods_by_id` and
`search_food_by_query` on one client instance, a later call with exactly
the same argument tuple (keyword set included) returns the previously
computed result with no new network request and no cache change —
whatever the network would have answered the second time — and keys built
from differing keyword-argument sets are distinct. -/
theorem memoized_methods_cache_by_args (apiKey : String) :
    (∀ (cache cache2 : Cache FoodEntry) (fid : PyVal) (kwargs : List (String × PyVal))
       (status status2 : Nat) (body body2 : RawFood) (v : FoodEntry)
       (reqs : List HttpRequest),
       FCAPI.food_by_id apiKey cache fid kwargs status body = (Except.ok v, reqs, cache2) →
       FCAPI.food_by_id apiKey cache2 fid kwargs status2 body2 =
         (Except.ok v, [], cache2)) ∧
    (∀ (cache cache2 : Cache (List FoodEntry)) (q b : PyVal)
       (kwargs : List (String × PyVal)) (status status2 : Nat) (body body2 : List RawFood)
       (v : List FoodEntry) (reqs : List HttpRequest),
       FCAPI.search_food_by_query apiKey cache q b kwargs status body =
         (Except.ok v, reqs, cache2) →
       FCAPI.search_food_by_query apiKey cache2 q b kwargs status2 body2 =
         (Except.ok v, [], cache2)) ∧
    (∀ (cache : Cache (List FoodEntry)) (fids : PyVal) (kwargs : List (String × PyVal))
       (status : Nat) (body : List RawFood) (key : PyKey) (r : List FoodEntry),
       mkKey [fids] kwargs = some key → cacheLookup cache key = some r →
       FCAPI.foods_by_id apiKey cache fids kwargs status body =
         (Except.ok r, [], cache)) ∧
    (∀ (args : List PyVal) (kw1 kw2 : List (String × PyVal)) (k1 k2 : PyKey),
       kw1 ≠ kw2 → mkKey args kw1 = some k1 → mkKey args kw2 = some k2 → k1 ≠ k2) := by
  refine ⟨?_, ?_, ?_, ?_⟩
  · intro cache cache2 fid kwargs status status2 body body2 v reqs h
    exact cachedCall_repeat cache cache2 [fid] kwargs _ _ v reqs h
  · intro cache cache2 q b kwargs status status2 body body2 v reqs h
    exact cachedCall_repeat cache cache2 [q, b] kwargs _ _ v reqs h
  · intro cache fids kwargs status body key r hk hl
    exact cachedCall_hit cache [fids] kwargs _ key r hk hl
  · intro args kw1 kw2 k1 k2 hne h1 h2
    have e1 : k1 = ⟨args, kw1⟩ := by
      by_cases hc : (args.all PyVal.hashable && kw1.all fun p => p.2.hashable) = true
      · simp [mkKey, hc] at h1
        exact h1.symm
      · simp [mkKey, hc] at h1
    have e2 : k2 = ⟨args, kw2⟩ := by
      by_cases hc : (args.all PyVal.hashable && kw2.all fun p => p.2.hashable) = true
      · simp [mkKey, hc] at h2
        exact h2.symm
      · simp [mkKey, hc] at h2
    rw [e1, e2]
    intro hcontra
    exact hne (congrArg PyKey.kwargs hcontra)

/-- The cache key of `food_by_id(123)`. -/
def key123 : PyKey :=
  { args := [PyVal.int 123], kwargs := [] }

/-- The cache key of `search_food_by_query("cheddar")` (default brand). -/
def keyCheddar : PyKey :=
  { args := [PyVal.str "cheddar", PyVal.pynone], kwargs := [] }

/-- Witness for C5: concrete second calls served from the cache with no
request (one per method, after a successful first call for `food_by_id`
and `search_food_by_query`, and from a stored entry for `foods_by_id`),
and two concrete keys differing only in keyword set are distinct. -/
theorem memoized_methods_cache_by_args_witness :
    FCAPI.food_by_id "DEMO_KEY" [(key123, appleEntry)] (PyVal.int 123) [] 500 appleRaw =
      (Except.ok appleEntry, [], [(key123, appleEntry)]) ∧
    FCAPI.search_food_by_query "DEMO_KEY" [(keyCheddar, [appleEntry])] (PyVal.str "cheddar")
        PyVal.pynone [] 404 [] =
      (Except.ok [appleEntry], [], [(keyCheddar, [appleEntry])]) ∧
    FCAPI.foods_by_id "DEMO_KEY" [(key123, [appleEntry])] (PyVal.int 123) [] 200 [] =
      (Except.ok [appleEntry], [], [(key123, [appleEntry])]) ∧
    ({ args := [PyVal.int 1], kwargs := [("pageSize", PyVal.int 5)] } : PyKey) ≠
      { args := [PyVal.int 1], kwargs := [] } :=
  ⟨(memoized_methods_cache_by_args "DEMO_KEY").1 [] [(key123, appleEntry)] (PyVal.int 123)
      [] 200 500 appleRaw appleRaw appleEntry
      [{ url := "https://api.nal.usda.gov/fdc/v1/food/123"
         params := [("api_key", PyVal.str "DEMO_KEY")] }]
      (by decide),
   (memoized_methods_cache_by_args "DEMO_KEY").2.1 [] [(keyCheddar, [appleEntry])]
      (PyVal.str "cheddar") PyVal.pynone [] 200 404 [appleRaw] [] [appleEntry]
      [{ url := "https://api.nal.usda.gov/fdc/v1/foods/search"
         params := [("api_key", PyVal.str "DEMO_KEY")] }]
      (by decide),
   (memoized_methods_cache_by_args "DEMO_KEY").2.2.1 [(key123, [appleEntry])]
      (PyVal.int 123) [] 200 [] key123 [appleEntry] (by decide) (by decide),
   (memoized_methods_cache_by_args "DEMO_KEY").2.2.2 [PyVal.int 1]
      [("pageSize", PyVal.int 5)] [] _ _ (by decide) (by decide) (by decide)⟩

/-- Witness for C2: the public `foods_by_id` on the singleton list `[1]`
fails with the cache layer's `TypeError`, no request, cache unchanged. -/
theorem foods_by_id_list_arg_unhashable_witness :
    FCAPI.foods_by_id "DEMO_KEY" [] (PyVal.list [PyVal.int 1]) [] 200 [] =
      (Except.error (PyError.typeError "unhashable type: list"), [], []) :=
  (foods_by_id_list_arg_unhashable "DEMO_KEY").1 [] [PyVal.int 1] [] 200 []

/-- Witness for C10: string conversion of the example entry fails. -/
theorem foodentry_str_always_fails_witness :
    pyStrConvert appleEntry =
      Except.error (PyError.typeError "result of dunder str must be str, not NoneType") :=
  foodentry_str_always_fails appleEntry
